import Mathlib

/-!
Verification development for `rd_froth_testops.py` (Froth Test Ops test-case
generator).  The Python module is shallowly embedded: pure helpers become Lean
functions, the mutable `TestCaseGenerator` object state (quota table, cache,
audit log, vector store) becomes an explicit `GenState` threaded through the
operations, and the external collaborators (OpenAI API, tiktoken encoder,
sentence-transformer embeddings + chroma nearest-neighbour query, `hashlib`
digest, `datetime` clock, ISO timestamp parsing) become explicit parameters in
a `GenEnv` record.  Python exceptions become `Except` results; Python `float`
arithmetic on costs and similarity scores is modelled with exact rationals;
token counts (always non-negative in the source) are modelled with `Nat`;
dates are modelled as their ISO strings (the source only compares them for
equality), while the timestamps compared by `cleanup_cache` are modelled as
integers produced by the parsing collaborator.
-/

set_option maxHeartbeats 1000000
set_option maxRecDepth 2048

namespace FrothTestOps

/-! ## Association lists

Python `dict`s with string keys (`self.quotas`, `self.cache`) are modelled as
association lists with unique-key insert/replace semantics. -/

def lookupA {α : Type} : List (String × α) → String → Option α
  | [], _ => none
  | (k, v) :: rest, key => if k = key then some v else lookupA rest key

def insertA {α : Type} : List (String × α) → String → α → List (String × α)
  | [], key, v => [(key, v)]
  | (k, w) :: rest, key, v =>
      if k = key then (key, v) :: rest else (k, w) :: insertA rest key v

/-! ## Data model (`@dataclass` definitions, lines 50-81 of the source) -/

/-- `TokenUsage` dataclass (source lines 50-56). -/
structure TokenUsage where
  prompt_tokens : Nat
  completion_tokens : Nat
  total_tokens : Nat
  cost_usd : ℚ := 0
deriving Repr, DecidableEq

/-- `UserQuota` dataclass (source lines 58-66), with its default limits. -/
structure UserQuota where
  user_id : String
  daily_limit : Nat := 10000
  monthly_limit : Nat := 300000
  daily_used : Nat := 0
  monthly_used : Nat := 0
  last_reset_date : Option String := none
deriving Repr, DecidableEq

/-- `AuditLog` dataclass (source lines 68-81). -/
structure AuditLog where
  request_id : String
  user_id : String
  timestamp : String
  endpoint : String
  request_hash : String
  response_status : String
  token_usage : TokenUsage
  processing_time_ms : Nat
  was_cached : Bool := false
  similarity_score : ℚ := 0
  source : String := "openai"
deriving Repr, DecidableEq

/-- One value of the `self.cache` dict (shape written at source lines 479-486).
`created_at` is `Option` because `cleanup_cache` treats a missing key as a
corrupt entry (the `except` branch at lines 592-595). -/
structure CacheEntry where
  test_cases : String
  prompt_tokens : Nat
  completion_tokens : Nat
  total_tokens : Nat
  created_at : Option String
  model : String
deriving Repr, DecidableEq

/-- One record of the chroma collection as written by `_store_in_vector_db`
(source lines 273-282). -/
structure VecRecord where
  id : String
  document : String
  test_cases : String
  created_at : String
deriving Repr, DecidableEq

/-- The mutable state of a `TestCaseGenerator` instance: quota table, cache,
audit log (the append-only jsonl file) and the vector collection. -/
structure GenState where
  quotas : List (String × UserQuota)
  cache : List (String × CacheEntry)
  audit_log : List AuditLog
  vector_db : List VecRecord
deriving Repr, DecidableEq

/-- The nearest-neighbour answer of `self.collection.query(..., n_results=1)`
for the requirement being processed (source lines 245-258): the stored
document, its `test_cases` metadata, the cosine distance and the record id.
`none` models an absent collection, an empty result set, or a query error. -/
structure Neighbor where
  document : String
  test_cases : String
  distance : ℚ
  id : String
deriving Repr, DecidableEq

/-- The dict returned by `_find_similar_requirements` on a hit
(source lines 254-259). -/
structure SimilarData where
  requirement : String
  test_cases : String
  similarity_score : ℚ
  id : String
deriving Repr, DecidableEq

/-- The dict returned by `_call_openai_api` on success (source lines 341-349). -/
structure ApiResponse where
  content : String
  token_usage : TokenUsage
deriving Repr, DecidableEq

/-- External collaborators and ambient inputs of one `generate_test_cases`
call: the `hashlib` digest, the tiktoken length function, the clock values,
the fresh uuid, the API-key configuration, the chroma nearest-neighbour
answer for this requirement, and the outcome the OpenAI call would have. -/
structure GenEnv where
  sha256 : String → String
  encode_len : String → Nat
  today : String
  now_iso : String
  request_id : String
  processing_time_ms : Nat
  has_api_key : Bool
  nearest : Option Neighbor
  api_result : Except String ApiResponse

/-- The exceptions `generate_test_cases` can raise:
`ValueError("User quota exceeded for today/month")` (line 386),
`Exception("Failed to generate test cases: ...")` (line 535), and
`ValueError("No OpenAI API key available and no similar requirements found")`
(line 537). -/
inductive GenError where
  | quotaExceeded
  | apiFailed (msg : String)
  | noApiKey
deriving Repr, DecidableEq

/-- The result dict of a successful `generate_test_cases` call.  The three
return sites (lines 413-424, 452-460, 508-516) populate different subsets of
keys; absent keys are `none`. -/
structure GenResult where
  status : String
  test_cases : String
  source : String
  request_id : String
  cached : Bool
  token_usage : Option TokenUsage := none
  cost_usd : Option ℚ := none
  similarity_score : Option ℚ := none
  similar_requirement : Option String := none
deriving Repr, DecidableEq

deriving instance DecidableEq for Except

/-! ## Canonicalization (`text.strip().lower()`, source line 182) -/

/-- Whitespace stripped by Python `str.strip()` (ASCII whitespace, the C1
separators, NEL and NBSP; wider Unicode space classes are outside the scope
of this model). -/
def pyIsSpace (c : Char) : Bool :=
  c.toNat = 32 ∨ (9 ≤ c.toNat ∧ c.toNat ≤ 13) ∨ (28 ≤ c.toNat ∧ c.toNat ≤ 31) ∨
  c.toNat = 133 ∨ c.toNat = 160

/-- Python `str.strip()`: drop leading and trailing whitespace. -/
def pyStrip (s : List Char) : List Char :=
  ((s.dropWhile pyIsSpace).reverse.dropWhile pyIsSpace).reverse

/-- Python `str.lower()` restricted to ASCII letters (the case mappings the
source's inputs exercise; full Unicode case folding is outside this model). -/
def pyToLower (c : Char) : Char :=
  if 65 ≤ c.toNat ∧ c.toNat ≤ 90 then Char.ofNat (c.toNat + 32) else c

/-- `text.strip().lower()` — the canonical form fingerprinted at line 182. -/
def pyCanon (s : String) : String :=
  String.mk ((pyStrip s.data).map pyToLower)

/-! ## Fingerprinting (`_generate_hash`, source lines 180-186)

`_generate_hash` serializes `{"text": canonical_text, **params}` with
`json.dumps(..., sort_keys=True)` and digests the result with
`hashlib.sha256(...).hexdigest()`.  The JSON serialization of a
string-to-string dict (key-sorted, default separators, `ensure_ascii=True`
escaping) is modelled faithfully below; the SHA-256 digest itself is an
external-library primitive and is a parameter `h` of the model (claims that
need distinct digests for distinct serializations assume `h` injective,
SHA-256's collision-freeness in practice). -/

/-- Lowercase hex digit of `n % 16`, as emitted by the json encoder: code
point 48-57 for 0-9, 97-102 for 10-15. -/
def hexDig (n : Nat) : Char :=
  if n % 16 < 10 then Char.ofNat (48 + n % 16) else Char.ofNat (87 + n % 16)

/-- A `\uXXXX` escape for the 16-bit value `n % 65536`. -/
def uEsc (n : Nat) : List Char :=
  ['\\', 'u', hexDig (n / 4096), hexDig (n / 256), hexDig (n / 16), hexDig n]

/-- `json.dumps` (`ensure_ascii=True`) encoding of one character: printable
ASCII passes through, the named controls and `"` `\` use two-character
escapes, everything else becomes `\uXXXX` (a surrogate pair beyond the BMP). -/
def escChar (c : Char) : List Char :=
  let n := c.toNat
  if n = 34 then ['\\', '"']
  else if n = 92 then ['\\', '\\']
  else if n = 8 then ['\\', 'b']
  else if n = 9 then ['\\', 't']
  else if n = 10 then ['\\', 'n']
  else if n = 12 then ['\\', 'f']
  else if n = 13 then ['\\', 'r']
  else if 32 ≤ n ∧ n ≤ 126 then [c]
  else if n ≤ 65535 then uEsc n
  else uEsc (55296 + (n - 65536) / 1024) ++ uEsc (56320 + (n - 65536) % 1024)

/-- `json.dumps` escaping of a whole string body. -/
def esc : List Char → List Char
  | [] => []
  | c :: rest => escChar c ++ esc rest

/-- A JSON string literal: quote, escaped body, quote. -/
def jsonQuote (s : List Char) : List Char := '"' :: esc s ++ ['"']

/-- Serialization of the (already key-sorted) dict items with the default
separators `", "` and `": "`. -/
def dumpsPairs : List (String × String) → List Char
  | [] => []
  | [(k, v)] => jsonQuote k.data ++ ':' :: ' ' :: jsonQuote v.data
  | (k, v) :: p :: rest =>
      jsonQuote k.data ++ ':' :: ' ' :: jsonQuote v.data ++ ',' :: ' ' ::
        dumpsPairs (p :: rest)

/-- `json.dumps` of a string-to-string dict given as a key-sorted
association list. -/
def dumps (l : List (String × String)) : String :=
  String.mk ('\x7b' :: dumpsPairs l ++ ['\x7d'])

/-- Python string comparison (code-point lexicographic `<`). -/
def strLtL : List Char → List Char → Bool
  | [], [] => false
  | [], _ :: _ => true
  | _ :: _, [] => false
  | a :: as, b :: bs =>
      if a.toNat < b.toNat then true
      else if b.toNat < a.toNat then false
      else strLtL as bs

def keyLe (a b : String) : Bool := !(strLtL b.data a.data)

/-- Stable insertion for sorting the dict items by key (`sort_keys=True`). -/
def insortKey (p : String × String) : List (String × String) → List (String × String)
  | [] => [p]
  | q :: rest => if keyLe p.1 q.1 then p :: q :: rest else q :: insortKey p rest

def sortByKey (l : List (String × String)) : List (String × String) :=
  l.foldr insortKey []

/-- Python `dict.update`: later entries override existing keys. -/
def pyUpdate (base params : List (String × String)) : List (String × String) :=
  params.foldl (fun d kv => insertA d kv.1 kv.2) base

/-- `_generate_hash` (source lines 180-186): canonicalize the text, build
`{"text": ..., **params}`, serialize it key-sorted, and digest it with `h`
(the `hashlib.sha256(...).hexdigest()` collaborator). -/
def _generate_hash (h : String → String) (text : String)
    (params : List (String × String)) : String :=
  h (dumps (sortByKey (pyUpdate [("text", pyCanon text)] params)))

/-- The fingerprint as `generate_test_cases` computes it (source lines
378-379): params `{"model": model, "version": version}` (the orchestrator
passes version `"1.0"`). -/
def cacheKeyHash (h : String → String) (text model version : String) : String :=
  _generate_hash h text [("model", model), ("version", version)]

/-! Decoders for the JSON escaping, used to prove that the serialization
feeding the digest is injective (so distinct canonical inputs produce
distinct digest inputs). -/

/-- Inverse of `hexDig` on lowercase hex digits. -/
def hexVal (c : Char) : Option Nat :=
  if 48 ≤ c.toNat ∧ c.toNat ≤ 57 then some (c.toNat - 48)
  else if 97 ≤ c.toNat ∧ c.toNat ≤ 102 then some (c.toNat - 87)
  else none

/-- Value of a four-hex-digit block. -/
def hex4 (a b c d : Char) : Option Nat :=
  match hexVal a, hexVal b, hexVal c, hexVal d with
  | some x, some y, some z, some w => some (4096 * x + 256 * y + 16 * z + w)
  | _, _, _, _ => none

/-- Decode the first escaped character of a JSON string body to its code
point (reassembling surrogate pairs), returning it with the unconsumed
remainder. -/
def headDecodeN : List Char → Option (Nat × List Char)
  | [] => none
  | c :: t =>
      if c = '\\' then
        match t with
        | '"' :: r => some (34, r)
        | '\\' :: r => some (92, r)
        | 'b' :: r => some (8, r)
        | 't' :: r => some (9, r)
        | 'n' :: r => some (10, r)
        | 'f' :: r => some (12, r)
        | 'r' :: r => some (13, r)
        | 'u' :: a :: b :: c2 :: d :: r =>
            match hex4 a b c2 d with
            | none => none
            | some n =>
                if 55296 ≤ n ∧ n < 56320 then
                  match r with
                  | '\\' :: 'u' :: a2 :: b2 :: c3 :: d2 :: r2 =>
                      match hex4 a2 b2 c3 d2 with
                      | none => none
                      | some m =>
                          if 56320 ≤ m ∧ m < 57344 then
                            some (65536 + (n - 55296) * 1024 + (m - 56320), r2)
                          else none
                  | _ => none
                else some (n, r)
        | _ => none
      else some (c.toNat, t)

/-- Scan an escaped JSON string body up to its closing unescaped quote,
returning the body and the remainder after the quote. -/
def scanStr : List Char → Option (List Char × List Char)
  | [] => none
  | c :: r =>
      if c = '"' then some ([], r)
      else if c = '\\' then
        match r with
        | [] => none
        | c2 :: r2 => (scanStr r2).map fun p => (c :: c2 :: p.1, p.2)
      else (scanStr r).map fun p => (c :: p.1, p.2)
termination_by l => l.length
decreasing_by
  · simp
    omega
  · simp

/-! ## Cost calculator (`_calculate_cost`, source lines 192-200) -/

/-- `self.pricing` (source lines 120-123): USD per 1K tokens. -/
def pricing : List (String × ℚ × ℚ) :=
  [("gpt-3.5-turbo", (1/1000, 2/1000)), ("gpt-4", (3/100, 6/100))]

def lookupP : List (String × ℚ × ℚ) → String → Option (ℚ × ℚ)
  | [], _ => none
  | (k, v) :: rest, key => if k = key then some v else lookupP rest key

/-- `_calculate_cost` (source lines 192-200). -/
def _calculate_cost (token_usage : TokenUsage) (model : String) : ℚ :=
  match lookupP pricing model with
  | none => 0
  | some p =>
      (token_usage.prompt_tokens : ℚ) / 1000 * p.1 +
      (token_usage.completion_tokens : ℚ) / 1000 * p.2

/-! ## Quota tracker (source lines 202-228) -/

/-- The daily-reset block of `_check_user_quota` (source lines 210-213). -/
def resetQ (quota : UserQuota) (today : String) : UserQuota :=
  if quota.last_reset_date ≠ some today then
    { quota with daily_used := 0, last_reset_date := some today }
  else quota

/-- `_check_user_quota` (source lines 202-221): lazily create the user's
record, apply the daily reset, persist the (possibly reset) record, and admit
the request unless a limit would be exceeded. -/
def _check_user_quota (user_id : String) (estimated_tokens : Nat) (today : String)
    (st : GenState) : Bool × GenState :=
  let quotas0 := match lookupA st.quotas user_id with
    | none => insertA st.quotas user_id { user_id := user_id }
    | some _ => st.quotas
  let quota := (lookupA quotas0 user_id).getD { user_id := user_id }
  let quota1 := resetQ quota today
  let ok := !decide (quota1.daily_used + estimated_tokens > quota1.daily_limit) &&
            !decide (quota1.monthly_used + estimated_tokens > quota1.monthly_limit)
  (ok, { st with quotas := insertA quotas0 user_id quota1 })

/-- The quota record a fresh user holds right after a check on day `today`:
the defaults of the `UserQuota` dataclass with the daily reset applied. -/
def freshQuota (user_id : String) (today : String) : UserQuota :=
  { user_id := user_id, daily_used := 0, last_reset_date := some today }

/-- `_update_user_quota` (source lines 223-228).  The trailing
`_save_data_stores()` disk flush has no observable effect in this model. -/
def _update_user_quota (user_id : String) (tokens_used : Nat) (st : GenState) : GenState :=
  match lookupA st.quotas user_id with
  | none => st
  | some q =>
      let q1 : UserQuota :=
        { q with daily_used := q.daily_used + tokens_used,
                 monthly_used := q.monthly_used + tokens_used }
      { st with quotas := insertA st.quotas user_id q1 }

/-! ## Audit log, similarity lookup, vector store (source lines 230-285) -/

/-- `_log_audit` (source lines 230-233): append one record to the jsonl file. -/
def _log_audit (audit_log : AuditLog) (st : GenState) : GenState :=
  { st with audit_log := st.audit_log ++ [audit_log] }

/-- `_find_similar_requirements` (source lines 235-263): given the
nearest-neighbour query answer, convert distance to similarity and gate on
the threshold. -/
def _find_similar_requirements (nearest : Option Neighbor) (threshold : ℚ) :
    Option SimilarData :=
  match nearest with
  | none => none
  | some n =>
      if 1 - n.distance ≥ threshold then
        some { requirement := n.document, test_cases := n.test_cases,
               similarity_score := 1 - n.distance, id := n.id }
      else none

/-- `_store_in_vector_db` (source lines 265-285). -/
def _store_in_vector_db (requirement : String) (test_cases : String)
    (request_id : String) (now_iso : String) (st : GenState) : GenState :=
  { st with vector_db := st.vector_db ++
      [({ id := request_id, document := requirement, test_cases := test_cases,
          created_at := now_iso } : VecRecord)] }

/-! ## Python `str.replace` and the local template generation
(`_generate_local_test_cases`, source lines 354-364) -/

/-- Bool test: `pat` is a prefix of `s`. -/
def startsWith : List Char → List Char → Bool
  | [], _ => true
  | _ :: _, [] => false
  | a :: as, b :: bs => decide (a = b) && startsWith as bs

/-- Bool test: `pat` occurs somewhere in `s` (Python `pat in s`). -/
def hasMatch (pat : List Char) : List Char → Bool
  | [] => pat.isEmpty
  | c :: rest => startsWith pat (c :: rest) || hasMatch pat rest

theorem startsWith_length {pat s : List Char} (h : startsWith pat s = true) :
    pat.length ≤ s.length := by
  induction pat generalizing s with
  | nil => simp
  | cons a as ih =>
      cases s with
      | nil => simp [startsWith] at h
      | cons b bs =>
          simp only [startsWith, Bool.and_eq_true, decide_eq_true_eq] at h
          simpa using ih h.2

/-- The scanning loop of CPython `str.replace` for a non-empty pattern:
left-to-right, non-overlapping occurrences. -/
def replGo (pat rep : List Char) (hp : pat ≠ []) : List Char → List Char
  | [] => []
  | c :: rest =>
      if h : startsWith pat (c :: rest) = true then
        rep ++ replGo pat rep hp ((c :: rest).drop pat.length)
      else c :: replGo pat rep hp rest
termination_by s => s.length
decreasing_by
  · have h1 := startsWith_length h
    have h2 : 0 < pat.length := List.length_pos.mpr hp
    simp only [List.length_drop]
    omega
  · simp

/-- Python `s.replace(pat, rep)` (all occurrences; for an empty pattern,
`rep` is inserted before every character and at the end). -/
def pyReplaceL (s pat rep : List Char) : List Char :=
  if h : pat = [] then s.foldr (fun c acc => rep ++ c :: acc) rep
  else replGo pat rep h s

/-- Splitting companion of `replGo` (Python `s.split(pat)` for non-empty
`pat`): used to give `replace` its declarative characterization. -/
def splitGo (pat : List Char) (hp : pat ≠ []) : List Char → List (List Char)
  | [] => [[]]
  | c :: rest =>
      if h : startsWith pat (c :: rest) = true then
        [] :: splitGo pat hp ((c :: rest).drop pat.length)
      else
        match splitGo pat hp rest with
        | [] => [[c]]
        | p :: ps => (c :: p) :: ps
termination_by s => s.length
decreasing_by
  · have h1 := startsWith_length h
    have h2 : 0 < pat.length := List.length_pos.mpr hp
    simp only [List.length_drop]
    omega
  · simp

/-- Join a list of pieces with a separator (Python `sep.join(pieces)`). -/
def joinWith (sep : List Char) : List (List Char) → List Char
  | [] => []
  | [x] => x
  | x :: y :: xs => x ++ sep ++ joinWith sep (y :: xs)

/-- `_generate_local_test_cases` (source lines 354-364):
`base_test_cases.replace(similar_requirement.lower(), requirement.lower())`. -/
def _generate_local_test_cases (requirement : String) (similar_data : SimilarData) :
    String :=
  String.mk (pyReplaceL similar_data.test_cases.data
    (similar_data.requirement.data.map pyToLower)
    (requirement.data.map pyToLower))

/-- Modelled from the spec claim wording (C2), for comparison against the
source behaviour: replace ALL case-insensitive occurrences of `pat` in the
scanned text by `rep` (the replacement text verbatim).  The first argument
is recursion fuel (one unit per scanned position suffices). -/
def ciReplace (pat rep : List Char) : Nat → List Char → List Char
  | _, [] => []
  | 0, s => s
  | fuel + 1, c :: rest =>
      if startsWith (pat.map pyToLower) ((c :: rest).map pyToLower) then
        rep ++ ciReplace pat rep fuel ((c :: rest).drop pat.length)
      else c :: ciReplace pat rep fuel rest

/-- The claim-predicted payload: every case-insensitive occurrence of `pat`
in `s` replaced by `rep` verbatim. -/
def ciReplaceAll (pat rep s : List Char) : List Char :=
  ciReplace pat rep s.length s

/-! ## Generation orchestrator (`generate_test_cases`, source lines 366-537) -/

/-- `generate_test_cases` (source lines 366-537) as a state transformer.
Raised exceptions are `Except.error` values; the state is returned in either
case, since a Python exception does not roll back the object's mutations.
Branch mapping: quota rejection (385-386), cache hit (389-424), vector
similarity hit (427-460), OpenAI call (463-535), missing API key (537). -/
def generate_test_cases (env : GenEnv) (requirement user_id model : String)
    (use_vector_similarity : Bool) (similarity_threshold : ℚ) (st : GenState) :
    Except GenError GenResult × GenState :=
  let cache_key := _generate_hash env.sha256 requirement
    [("model", model), ("version", "1.0")]
  let estimated_tokens := env.encode_len requirement + 500
  let qres := _check_user_quota user_id estimated_tokens env.today st
  if qres.1 = false then
    (Except.error GenError.quotaExceeded, qres.2)
  else
    match lookupA qres.2.cache cache_key with
    | some cached_data =>
        let usage : TokenUsage :=
          { prompt_tokens := cached_data.prompt_tokens,
            completion_tokens := cached_data.completion_tokens,
            total_tokens := cached_data.total_tokens }
        let al : AuditLog :=
          { request_id := env.request_id, user_id := user_id,
            timestamp := env.now_iso, endpoint := "generate_test_cases",
            request_hash := cache_key, response_status := "success",
            token_usage := usage, processing_time_ms := env.processing_time_ms,
            was_cached := true, source := "cache" }
        let res : GenResult :=
          { status := "success", test_cases := cached_data.test_cases,
            source := "cache", request_id := env.request_id, cached := true,
            token_usage := some usage }
        (Except.ok res, _log_audit al qres.2)
    | none =>
        let simOpt := if use_vector_similarity then
            _find_similar_requirements env.nearest similarity_threshold
          else none
        match simOpt with
        | some similar_data =>
            let test_cases := _generate_local_test_cases requirement similar_data
            let al : AuditLog :=
              { request_id := env.request_id, user_id := user_id,
                timestamp := env.now_iso, endpoint := "generate_test_cases",
                request_hash := cache_key, response_status := "success",
                token_usage := { prompt_tokens := 0, completion_tokens := 0,
                                 total_tokens := 0 },
                processing_time_ms := env.processing_time_ms,
                was_cached := false,
                similarity_score := similar_data.similarity_score,
                source := "vector_db" }
            let res : GenResult :=
              { status := "success", test_cases := test_cases,
                source := "vector_similarity",
                similarity_score := some similar_data.similarity_score,
                request_id := env.request_id, cached := false,
                similar_requirement := some similar_data.requirement }
            (Except.ok res, _log_audit al qres.2)
        | none =>
            if env.has_api_key then
              match env.api_result with
              | Except.ok api_response =>
                  let cost := _calculate_cost api_response.token_usage model
                  let token_usage :=
                    { api_response.token_usage with cost_usd := cost }
                  let st2 := _update_user_quota user_id token_usage.total_tokens qres.2
                  let entry : CacheEntry :=
                    { test_cases := api_response.content,
                      prompt_tokens := token_usage.prompt_tokens,
                      completion_tokens := token_usage.completion_tokens,
                      total_tokens := token_usage.total_tokens,
                      created_at := some env.now_iso, model := model }
                  let st3 := { st2 with cache := insertA st2.cache cache_key entry }
                  let st4 := _store_in_vector_db requirement api_response.content
                    env.request_id env.now_iso st3
                  let al : AuditLog :=
                    { request_id := env.request_id, user_id := user_id,
                      timestamp := env.now_iso, endpoint := "generate_test_cases",
                      request_hash := cache_key, response_status := "success",
                      token_usage := token_usage,
                      processing_time_ms := env.processing_time_ms,
                      was_cached := false, source := "openai" }
                  let res : GenResult :=
                    { status := "success",
                      test_cases := api_response.content, source := "openai",
                      request_id := env.request_id, cached := false,
                      token_usage := some token_usage, cost_usd := some cost }
                  (Except.ok res, _log_audit al st4)
              | Except.error msg =>
                  let al : AuditLog :=
                    { request_id := env.request_id, user_id := user_id,
                      timestamp := env.now_iso, endpoint := "generate_test_cases",
                      request_hash := cache_key, response_status := "failed",
                      token_usage := { prompt_tokens := 0, completion_tokens := 0,
                                       total_tokens := 0 },
                      processing_time_ms := env.processing_time_ms,
                      was_cached := false, source := "openai_failed" }
                  (Except.error (GenError.apiFailed msg), _log_audit al qres.2)
            else
              (Except.error GenError.noApiKey, qres.2)

/-! ## Statistics, audit summary, cache cleanup (source lines 539-601) -/

/-- The dict returned by `get_user_stats` for a known user (lines 545-557). -/
structure UserStats where
  user_id : String
  daily_limit : Nat
  daily_used : Nat
  daily_remaining : Int
  monthly_limit : Nat
  monthly_used : Nat
  monthly_remaining : Int
deriving Repr, DecidableEq

/-- `get_user_stats` (source lines 539-557); `none` models the
`{"error": "User not found"}` return. -/
def get_user_stats (user_id : String) (st : GenState) : Option UserStats :=
  (lookupA st.quotas user_id).map fun quota =>
    { user_id := user_id,
      daily_limit := quota.daily_limit,
      daily_used := quota.daily_used,
      daily_remaining := (quota.daily_limit : Int) - (quota.daily_used : Int),
      monthly_limit := quota.monthly_limit,
      monthly_used := quota.monthly_used,
      monthly_remaining := (quota.monthly_limit : Int) - (quota.monthly_used : Int) }

/-- The loop body of `cleanup_cache` (source lines 586-595) over the cache
items: keep or drop each entry and count the drops.  `parse` models
`datetime.fromisoformat` (timestamps as integer seconds), `cutoff` the
computed cutoff instant. -/
def cleanupGo (parse : String → Option Int) (cutoff : Int) :
    List (String × CacheEntry) → List (String × CacheEntry) × Nat
  | [] => ([], 0)
  | (k, v) :: rest =>
      let r := cleanupGo parse cutoff rest
      match v.created_at with
      | none => (r.1, r.2 + 1)
      | some s =>
          match parse s with
          | none => (r.1, r.2 + 1)
          | some d => if d < cutoff then (r.1, r.2 + 1) else ((k, v) :: r.1, r.2)

/-- `cleanup_cache` (source lines 581-601): `cutoff = now - timedelta(days)`
with time in seconds; returns the new state and the removed count. -/
def cleanup_cache (parse : String → Option Int) (now : Int) (days_old : Int)
    (st : GenState) : GenState × Nat :=
  let cutoff := now - 86400 * days_old
  let r := cleanupGo parse cutoff st.cache
  ({ st with cache := r.1 }, r.2)

/-- The retention test `cleanup_cache` implements for one entry: a parseable
timestamp not strictly older than the cutoff. -/
def keepEntry (parse : String → Option Int) (cutoff : Int) (v : CacheEntry) : Bool :=
  match v.created_at with
  | none => false
  | some s =>
      match parse s with
      | none => false
      | some d => decide (cutoff ≤ d)

/-! ## Concrete fixtures used by the witness theorems -/

/-- An environment with no API key and no neighbour; the digest collaborator
is instantiated with `id` (injective, so a faithful stand-in). -/
def envW : GenEnv :=
  { sha256 := id, encode_len := fun _ => 0, today := "2026-10-12",
    now_iso := "2026-10-12T10:00:00", request_id := "req-1",
    processing_time_ms := 0, has_api_key := false, nearest := none,
    api_result := Except.error "no call" }

def qAlice : UserQuota :=
  { user_id := "alice", daily_limit := 1000, daily_used := 600,
    monthly_used := 600, last_reset_date := some "2026-10-12" }

def stAlice : GenState :=
  { quotas := [("alice", qAlice)], cache := [], audit_log := [], vector_db := [] }

def qBob : UserQuota :=
  { user_id := "bob", daily_used := 100, monthly_used := 200,
    last_reset_date := some "2026-10-12" }

def entryW : CacheEntry :=
  { test_cases := "cached cases", prompt_tokens := 11, completion_tokens := 22,
    total_tokens := 33, created_at := some "2026-10-01T00:00:00",
    model := "gpt-3.5-turbo" }

def keyW : String :=
  _generate_hash id "Login" [("model", "gpt-3.5-turbo"), ("version", "1.0")]

def stBob : GenState :=
  { quotas := [("bob", qBob)], cache := [(keyW, entryW)], audit_log := [],
    vector_db := [] }

def qFrank : UserQuota :=
  { user_id := "frank", daily_used := 10000,
    last_reset_date := some "2026-10-12" }

def stFrank : GenState :=
  { quotas := [("frank", qFrank)], cache := [], audit_log := [], vector_db := [] }

def qCarol : UserQuota :=
  { user_id := "carol", last_reset_date := some "2026-10-12" }

def stCarol : GenState :=
  { quotas := [("carol", qCarol)], cache := [], audit_log := [], vector_db := [] }

def respW : ApiResponse :=
  { content := "generated cases",
    token_usage := { prompt_tokens := 10, completion_tokens := 20,
                     total_tokens := 30 } }

def nbrS : Neighbor :=
  { document := "User login with email", test_cases := "old cases",
    distance := 1/2, id := "v1" }

/-- An environment whose nearest neighbour sits at cosine distance 1/2
(similarity 1/2) and whose provider call would succeed. -/
def envS : GenEnv :=
  { sha256 := id, encode_len := fun _ => 0, today := "2026-10-12",
    now_iso := "2026-10-12T10:00:00", request_id := "req-2",
    processing_time_ms := 0, has_api_key := true, nearest := some nbrS,
    api_result := Except.ok respW }

def st0 : GenState :=
  { quotas := [], cache := [], audit_log := [], vector_db := [] }

/-- A semantic hit whose stored payload echoes the matched requirement in its
original (mixed) casing. -/
def simC2 : SimilarData :=
  { requirement := "User Login", test_cases := "Verify User Login works",
    similarity_score := 9/10, id := "v9" }

/-- A semantic hit whose stored payload does not contain the lowercased
matched requirement at all. -/
def simC2b : SimilarData :=
  { requirement := "User Login", test_cases := "Standalone checks only",
    similarity_score := 9/10, id := "v10" }

/-! ## Association-list lemmas -/

theorem lookupA_insertA_self {α : Type} (l : List (String × α)) (k : String) (v : α) :
    lookupA (insertA l k v) k = some v := by
  induction l with
  | nil => simp [insertA, lookupA]
  | cons p rest ih =>
      obtain ⟨k', w⟩ := p
      by_cases h : k' = k
      · simp [insertA, lookupA, h]
      · simp [insertA, lookupA, h, ih]

theorem lookupA_insertA_ne {α : Type} (l : List (String × α)) (k k' : String) (v : α)
    (h : k ≠ k') : lookupA (insertA l k v) k' = lookupA l k' := by
  induction l with
  | nil => simp [insertA, lookupA, h]
  | cons p rest ih =>
      obtain ⟨k0, w⟩ := p
      by_cases h0 : k0 = k
      · simp [insertA, lookupA, h0, h]
      · simp [insertA, lookupA, h0, ih]

/-! ## Quota-check computation lemmas -/

theorem check_eq_of_present {st : GenState} {user_id : String} {q : UserQuota}
    (hq : lookupA st.quotas user_id = some q) (est : Nat) (today : String) :
    _check_user_quota user_id est today st =
      (!decide ((resetQ q today).daily_used + est > (resetQ q today).daily_limit) &&
       !decide ((resetQ q today).monthly_used + est > (resetQ q today).monthly_limit),
       { st with quotas := insertA st.quotas user_id (resetQ q today) }) := by
  unfold _check_user_quota
  rw [hq]
  simp [hq]

theorem check_eq_of_absent {st : GenState} {user_id : String}
    (hq : lookupA st.quotas user_id = none) (est : Nat) (today : String) :
    _check_user_quota user_id est today st =
      (!decide (0 + est > 10000) && !decide (0 + est > 300000),
       { st with quotas := insertA (insertA st.quotas user_id { user_id := user_id })
                   user_id (freshQuota user_id today) }) := by
  unfold _check_user_quota
  rw [hq]
  simp only [lookupA_insertA_self, Option.getD_some]
  simp [resetQ, freshQuota]

theorem check_snd_cache (user_id : String) (est : Nat) (today : String) (st : GenState) :
    (_check_user_quota user_id est today st).2.cache = st.cache := rfl

theorem check_snd_audit (user_id : String) (est : Nat) (today : String) (st : GenState) :
    (_check_user_quota user_id est today st).2.audit_log = st.audit_log := rfl

theorem check_snd_vec (user_id : String) (est : Nat) (today : String) (st : GenState) :
    (_check_user_quota user_id est today st).2.vector_db = st.vector_db := rfl

theorem update_quota_audit (user_id : String) (n : Nat) (st : GenState) :
    (_update_user_quota user_id n st).audit_log = st.audit_log := by
  unfold _update_user_quota
  cases lookupA st.quotas user_id <;> rfl

theorem update_quota_cache (user_id : String) (n : Nat) (st : GenState) :
    (_update_user_quota user_id n st).cache = st.cache := by
  unfold _update_user_quota
  cases lookupA st.quotas user_id <;> rfl

/-! ## C9 — cost calculator -/

/-- C9: `_calculate_cost` is a pure function of the token usage and the model
name; any model name outside the price table yields exactly 0, and the two
recognized models are billed at `(prompt/1000) * input + (completion/1000) *
output` with the table's prices. -/
theorem c9_calculate_cost (tu : TokenUsage) (model : String)
    (h1 : model ≠ "gpt-3.5-turbo") (h2 : model ≠ "gpt-4") :
    _calculate_cost tu model = 0
  ∧ _calculate_cost tu "gpt-3.5-turbo"
      = (tu.prompt_tokens : ℚ) / 1000 * (1/1000)
        + (tu.completion_tokens : ℚ) / 1000 * (2/1000)
  ∧ _calculate_cost tu "gpt-4"
      = (tu.prompt_tokens : ℚ) / 1000 * (3/100)
        + (tu.completion_tokens : ℚ) / 1000 * (6/100) := by
  refine ⟨?_, by simp [_calculate_cost, pricing, lookupP],
            by simp [_calculate_cost, pricing, lookupP]⟩
  have hl : lookupP pricing model = none := by
    simp only [pricing, lookupP]
    rw [if_neg (fun h => h1 h.symm), if_neg (fun h => h2 h.symm)]
  simp [_calculate_cost, hl]

/-- C9 witness: an unknown model costs 0; a known one follows the table. -/
theorem c9_witness :
    _calculate_cost { prompt_tokens := 1000, completion_tokens := 2000,
                      total_tokens := 3000 } "claude-3" = 0
  ∧ _calculate_cost { prompt_tokens := 1000, completion_tokens := 2000,
                      total_tokens := 3000 } "gpt-4" = 3/20 := by
  have h := c9_calculate_cost
    { prompt_tokens := 1000, completion_tokens := 2000, total_tokens := 3000 }
    "claude-3" (by decide) (by decide)
  refine ⟨h.1, ?_⟩
  rw [h.2.2]
  norm_num

/-! ## C8 — cache cleanup -/

theorem cleanupGo_spec (parse : String → Option Int) (cutoff : Int) :
    ∀ l : List (String × CacheEntry),
      cleanupGo parse cutoff l
        = (l.filter (fun kv => keepEntry parse cutoff kv.2),
           (l.filter (fun kv => !keepEntry parse cutoff kv.2)).length)
  | [] => rfl
  | (k, v) :: rest => by
      have ih := cleanupGo_spec parse cutoff rest
      cases hca : v.created_at with
      | none => simp [cleanupGo, ih, hca, List.filter_cons, keepEntry]
      | some s =>
          cases hp : parse s with
          | none => simp [cleanupGo, ih, hca, hp, List.filter_cons, keepEntry]
          | some d =>
              by_cases hd : d < cutoff
              · simp [cleanupGo, ih, hca, hp, hd, List.filter_cons, keepEntry,
                      show ¬ cutoff ≤ d by omega]
              · simp [cleanupGo, ih, hca, hp, hd, List.filter_cons, keepEntry,
                      show cutoff ≤ d by omega]

/-- C8: `cleanup_cache` retains exactly the entries whose `created_at`
parses to a time not older than the cutoff (entries newer than the cutoff
are kept unchanged, in place); entries older than the cutoff or with a
missing/unparseable timestamp are removed; the returned count is exactly the
number of removed entries; and nothing else in the state is touched. -/
theorem c8_cleanup_cache (parse : String → Option Int) (now days_old : Int)
    (st : GenState) :
    (cleanup_cache parse now days_old st).1.cache
        = st.cache.filter (fun kv => keepEntry parse (now - 86400 * days_old) kv.2)
  ∧ (cleanup_cache parse now days_old st).2
        = (st.cache.filter
            (fun kv => !keepEntry parse (now - 86400 * days_old) kv.2)).length
  ∧ (cleanup_cache parse now days_old st).1.quotas = st.quotas
  ∧ (cleanup_cache parse now days_old st).1.audit_log = st.audit_log := by
  refine ⟨?_, ?_, rfl, rfl⟩ <;>
    simp [cleanup_cache, cleanupGo_spec]

/-! ## More state-projection lemmas -/

theorem log_audit_quotas (al : AuditLog) (st : GenState) :
    (_log_audit al st).quotas = st.quotas := rfl

theorem log_audit_len (al : AuditLog) (st : GenState) :
    (_log_audit al st).audit_log.length = st.audit_log.length + 1 := by
  simp [_log_audit]

theorem store_vec_quotas (r t i n : String) (st : GenState) :
    (_store_in_vector_db r t i n st).quotas = st.quotas := rfl

theorem store_vec_audit (r t i n : String) (st : GenState) :
    (_store_in_vector_db r t i n st).audit_log = st.audit_log := rfl

theorem resetQ_daily_limit (q : UserQuota) (t : String) :
    (resetQ q t).daily_limit = q.daily_limit := by
  unfold resetQ; split <;> rfl

theorem resetQ_monthly_limit (q : UserQuota) (t : String) :
    (resetQ q t).monthly_limit = q.monthly_limit := by
  unfold resetQ; split <;> rfl

theorem resetQ_monthly_used (q : UserQuota) (t : String) :
    (resetQ q t).monthly_used = q.monthly_used := by
  unfold resetQ; split <;> rfl

theorem resetQ_daily_used (q : UserQuota) (t : String) :
    (resetQ q t).daily_used
      = (if q.last_reset_date = some t then q.daily_used else 0) := by
  unfold resetQ
  by_cases h : q.last_reset_date = some t <;> simp [h]

/-! ## C3 — quota admission rule -/

/-- C3: `_check_user_quota` rejects exactly when, after the lazy daily reset,
`daily_used + estimated > daily_limit` or
`monthly_used + estimated > monthly_limit`; and the check itself never
increases either usage counter, so a rejected request consumes nothing. -/
theorem c3_quota_admission (st : GenState) (user_id today : String) (est : Nat)
    (q : UserQuota) (hq : lookupA st.quotas user_id = some q) :
    ((_check_user_quota user_id est today st).1 = false ↔
      ((resetQ q today).daily_used + est > q.daily_limit ∨
        q.monthly_used + est > q.monthly_limit))
  ∧ ((lookupA (_check_user_quota user_id est today st).2.quotas user_id).getD q).daily_used
        ≤ q.daily_used
  ∧ ((lookupA (_check_user_quota user_id est today st).2.quotas user_id).getD q).monthly_used
        = q.monthly_used := by
  rw [check_eq_of_present hq]
  refine ⟨?_, ?_, ?_⟩
  · simp [resetQ_daily_limit, resetQ_monthly_limit, resetQ_monthly_used]
    omega
  · simp only [lookupA_insertA_self, Option.getD_some]
    rw [resetQ_daily_used]
    split <;> simp
  · simp only [lookupA_insertA_self, Option.getD_some]
    exact resetQ_monthly_used q today

/-- C3 witness: Alice has `daily_limit = 1000` and has used 600 tokens today;
a request estimated at 500 tokens is rejected, and her counters are not
increased by the rejected check. -/
theorem c3_witness :
    (_check_user_quota "alice" 500 "2026-10-12" stAlice).1 = false
  ∧ ((lookupA (_check_user_quota "alice" 500 "2026-10-12" stAlice).2.quotas
        "alice").getD qAlice).monthly_used = qAlice.monthly_used := by
  have h := c3_quota_admission stAlice "alice" "2026-10-12" 500 qAlice (by decide)
  exact ⟨h.1.mpr (Or.inl (by decide)), h.2.2⟩

/-! ## C6 — daily rollover and monotonicity -/

/-- C6: a quota check on a date different from `last_reset_date` resets
`daily_used` to 0 and advances `last_reset_date` to the current date while
leaving `monthly_used` untouched; a check on the tracked date leaves the
record unchanged; and `_update_user_quota` adds its token count to both
counters, so within a window both counters are non-decreasing. -/
theorem c6_daily_reset (st st2 : GenState) (user_id today : String) (est n : Nat)
    (q q2 : UserQuota) (hq : lookupA st.quotas user_id = some q)
    (hq2 : lookupA st2.quotas user_id = some q2) :
    (q.last_reset_date ≠ some today →
       lookupA (_check_user_quota user_id est today st).2.quotas user_id
         = some { q with daily_used := 0, last_reset_date := some today })
  ∧ ({ q with daily_used := 0, last_reset_date := some today }).monthly_used
       = q.monthly_used
  ∧ (q.last_reset_date = some today →
       lookupA (_check_user_quota user_id est today st).2.quotas user_id = some q)
  ∧ lookupA (_update_user_quota user_id n st2).quotas user_id
       = some { q2 with daily_used := q2.daily_used + n,
                        monthly_used := q2.monthly_used + n }
  ∧ q2.daily_used ≤ q2.daily_used + n
  ∧ q2.monthly_used ≤ q2.monthly_used + n := by
  refine ⟨?_, rfl, ?_, ?_, Nat.le_add_right _ _, Nat.le_add_right _ _⟩
  · intro hne
    rw [check_eq_of_present hq]
    simp only [lookupA_insertA_self]
    simp [resetQ, hne]
  · intro heq
    rw [check_eq_of_present hq]
    simp only [lookupA_insertA_self]
    simp [resetQ, heq]
  · unfold _update_user_quota
    rw [hq2]
    simp [lookupA_insertA_self]

/-- C6 witness: Bob's tracked date is 2026-10-12; a check on 2026-10-13
resets his `daily_used` from 100 to 0 and keeps `monthly_used` at 200, and a
subsequent 40-token commit adds 40 to both counters. -/
theorem c6_witness :
    lookupA (_check_user_quota "bob" 0 "2026-10-13" stBob).2.quotas "bob"
      = some { user_id := "bob", daily_used := 0, monthly_used := 200,
               last_reset_date := some "2026-10-13" }
  ∧ lookupA (_update_user_quota "bob" 40 stBob).quotas "bob"
      = some { user_id := "bob", daily_used := 140, monthly_used := 240,
               last_reset_date := some "2026-10-12" } := by
  have h := c6_daily_reset stBob stBob "bob" "2026-10-13" 0 40 qBob qBob
    (by decide) (by decide)
  refine ⟨(h.1 (by decide)).trans (by decide), h.2.2.2.1.trans (by decide)⟩

/-! ## C10 — lazy user-record creation -/

theorem gen_quota_lookup_absent (env : GenEnv) (requirement user_id model : String)
    (usv : Bool) (thr : ℚ) (st : GenState)
    (hq : lookupA st.quotas user_id = none) :
    lookupA (generate_test_cases env requirement user_id model usv thr st).2.quotas
        user_id
      = some (freshQuota user_id env.today)
  ∨ ∃ n, lookupA (generate_test_cases env requirement user_id model usv thr st).2.quotas
        user_id
      = some { freshQuota user_id env.today with
               daily_used := 0 + n, monthly_used := 0 + n } := by
  have hck := check_eq_of_absent hq (env.encode_len requirement + 500) env.today
  by_cases h1 : (_check_user_quota user_id (env.encode_len requirement + 500)
      env.today st).1 = false
  · left
    simp only [generate_test_cases, h1, if_true]
    rw [hck]
    simp [lookupA_insertA_self]
  · rw [Bool.not_eq_false] at h1
    cases h2 : lookupA st.cache (_generate_hash env.sha256 requirement
        [("model", model), ("version", "1.0")]) with
    | some cd =>
        left
        simp only [generate_test_cases, h1, check_snd_cache, h2]
        simp only [Bool.true_eq_false, if_false, log_audit_quotas]
        rw [hck]
        simp [lookupA_insertA_self]
    | none =>
        cases h3 : (if usv then _find_similar_requirements env.nearest thr
            else none) with
        | some sd =>
            left
            simp only [generate_test_cases, h1, check_snd_cache, h2, h3]
            simp only [Bool.true_eq_false, if_false, log_audit_quotas]
            rw [hck]
            simp [lookupA_insertA_self]
        | none =>
            by_cases h4 : env.has_api_key
            · cases h5 : env.api_result with
              | ok resp =>
                  right
                  refine ⟨resp.token_usage.total_tokens, ?_⟩
                  simp only [generate_test_cases, h1, check_snd_cache, h2, h3, h4,
                    h5, Bool.true_eq_false, if_false, if_true, log_audit_quotas,
                    store_vec_quotas]
                  rw [hck]
                  simp only [_update_user_quota, lookupA_insertA_self]
                  simp [lookupA_insertA_self, freshQuota]
              | error msg =>
                  left
                  simp only [generate_test_cases, h1, check_snd_cache, h2, h3, h4,
                    h5, Bool.true_eq_false, if_false, if_true, log_audit_quotas]
                  rw [hck]
                  simp [lookupA_insertA_self]
            · left
              simp only [generate_test_cases, h1, check_snd_cache, h2, h3, h4,
                Bool.true_eq_false, if_false]
              rw [hck]
              simp [lookupA_insertA_self]

/-- C10: a `generate_test_cases` call for a user absent from the quota table
creates that user's record with the default limits 10000/300000 — whatever
the call's outcome — and `get_user_stats` afterwards returns a snapshot
satisfying `remaining + used = limit` for both windows instead of the
user-not-found error. -/
theorem c10_user_created (env : GenEnv) (requirement user_id model : String)
    (usv : Bool) (thr : ℚ) (st : GenState)
    (hq : lookupA st.quotas user_id = none) :
    ((lookupA (generate_test_cases env requirement user_id model usv thr st).2.quotas
        user_id).map fun q => (q.daily_limit, q.monthly_limit))
      = some (10000, 300000)
  ∧ ((get_user_stats user_id
        (generate_test_cases env requirement user_id model usv thr st).2).map
        fun s => (s.daily_limit, s.daily_remaining + (s.daily_used : Int),
                  s.monthly_limit, s.monthly_remaining + (s.monthly_used : Int)))
      = some (10000, 10000, 300000, 300000) := by
  rcases gen_quota_lookup_absent env requirement user_id model usv thr st hq with
    h | ⟨n, h⟩ <;>
    simp [h, get_user_stats, freshQuota]

/-- C10 witness: a call for the unknown user `dave` (rejected or not) creates
the default 10000/300000 quota record and `get_user_stats` then answers. -/
theorem c10_witness :
    ((lookupA (generate_test_cases envW "Req" "dave" "gpt-4" true (8/10) st0).2.quotas
        "dave").map fun q => (q.daily_limit, q.monthly_limit))
      = some (10000, 300000)
  ∧ ((get_user_stats "dave"
        (generate_test_cases envW "Req" "dave" "gpt-4" true (8/10) st0).2).map
        fun s => (s.daily_limit, s.daily_remaining + (s.daily_used : Int),
                  s.monthly_limit, s.monthly_remaining + (s.monthly_used : Int)))
      = some (10000, 10000, 300000, 300000) :=
  c10_user_created envW "Req" "dave" "gpt-4" true (8/10) st0 (by decide)

/-! ## C5 — cache hits consume nothing -/

/-- C5: when the fingerprint is in the cache (and the quota check admits the
request), `generate_test_cases` returns `source="cache"`, `cached=true`,
reports exactly the token counts stored in the cache entry, and leaves the
user's `daily_used`/`monthly_used` untouched except for the lazy daily
reset — no new tokens are consumed. -/
theorem c5_cache_hit (env : GenEnv) (requirement user_id model : String)
    (usv : Bool) (thr : ℚ) (st : GenState) (q : UserQuota) (cd : CacheEntry)
    (hq : lookupA st.quotas user_id = some q)
    (hok : (_check_user_quota user_id (env.encode_len requirement + 500)
        env.today st).1 = true)
    (hc : lookupA st.cache (_generate_hash env.sha256 requirement
        [("model", model), ("version", "1.0")]) = some cd) :
    (generate_test_cases env requirement user_id model usv thr st).1
      = Except.ok
          { status := "success", test_cases := cd.test_cases,
            source := "cache", request_id := env.request_id, cached := true,
            token_usage := some
              { prompt_tokens := cd.prompt_tokens,
                completion_tokens := cd.completion_tokens,
                total_tokens := cd.total_tokens } }
  ∧ lookupA (generate_test_cases env requirement user_id model usv thr st).2.quotas
        user_id = some (resetQ q env.today)
  ∧ (resetQ q env.today).monthly_used = q.monthly_used
  ∧ (resetQ q env.today).daily_used
      = (if q.last_reset_date = some env.today then q.daily_used else 0) := by
  refine ⟨?_, ?_, resetQ_monthly_used q env.today, resetQ_daily_used q env.today⟩
  · simp only [generate_test_cases, hok, check_snd_cache, hc, Bool.true_eq_false,
      if_false]
  · simp only [generate_test_cases, hok, check_snd_cache, hc, Bool.true_eq_false,
      if_false, log_audit_quotas]
    rw [check_eq_of_present hq]
    simp [lookupA_insertA_self]

/-- C5 witness: Bob's second request for `"Login"` is served from the cache
with the stored token counts and his quota record is unchanged (his tracked
date is already today, so even the reset is a no-op). -/
theorem c5_witness :
    (generate_test_cases envW "Login" "bob" "gpt-3.5-turbo" true (8/10) stBob).1
      = Except.ok
          { status := "success", test_cases := "cached cases",
            source := "cache", request_id := "req-1", cached := true,
            token_usage := some
              { prompt_tokens := 11, completion_tokens := 22,
                total_tokens := 33 } }
  ∧ lookupA (generate_test_cases envW "Login" "bob" "gpt-3.5-turbo" true
        (8/10) stBob).2.quotas "bob" = some qBob := by
  have h := c5_cache_hit envW "Login" "bob" "gpt-3.5-turbo" true (8/10) stBob
    qBob entryW (by decide) (by decide) (by decide)
  exact ⟨h.1.trans (by decide), h.2.1.trans (by decide)⟩

/-! ## C1 — audit records per attempt -/

/-- C1 counterexample: Frank's daily quota is exhausted, so the call fails
with the quota error — and the audit log is left empty: no failure record is
appended for the rejected attempt, contrary to the claim. -/
theorem c1_counterexample :
    (generate_test_cases envW "Anything" "frank" "gpt-3.5-turbo" true (8/10)
        stFrank).1 = Except.error GenError.quotaExceeded
  ∧ (generate_test_cases envW "Anything" "frank" "gpt-3.5-turbo" true (8/10)
        stFrank).2.audit_log = [] := by
  constructor
  · decide
  · decide

/-- C1 (amended): a `generate_test_cases` call appends exactly one audit
record when it ends in a cache hit, a semantic hit, a provider success, or a
provider failure — but a quota rejection or a missing API key raises with NO
audit record appended. -/
theorem c1_amended_audit (env : GenEnv) (requirement user_id model : String)
    (usv : Bool) (thr : ℚ) (st : GenState) :
    (generate_test_cases env requirement user_id model usv thr st).2.audit_log.length
      = st.audit_log.length +
          (match (generate_test_cases env requirement user_id model usv thr st).1 with
           | Except.error GenError.quotaExceeded => 0
           | Except.error GenError.noApiKey => 0
           | _ => 1) := by
  by_cases h1 : (_check_user_quota user_id (env.encode_len requirement + 500)
      env.today st).1 = false
  · simp [generate_test_cases, h1, check_snd_audit]
  · rw [Bool.not_eq_false] at h1
    cases h2 : lookupA st.cache (_generate_hash env.sha256 requirement
        [("model", model), ("version", "1.0")]) with
    | some cd =>
        simp [generate_test_cases, h1, check_snd_cache, h2, _log_audit,
          check_snd_audit]
    | none =>
        cases h3 : (if usv then _find_similar_requirements env.nearest thr
            else none) with
        | some sd =>
            simp [generate_test_cases, h1, check_snd_cache, h2, h3, _log_audit,
              check_snd_audit]
        | none =>
            by_cases h4 : env.has_api_key
            · cases h5 : env.api_result with
              | ok resp =>
                  simp [generate_test_cases, h1, check_snd_cache, h2, h3, h4, h5,
                    _log_audit, store_vec_audit, update_quota_audit,
                    check_snd_audit]
              | error msg =>
                  simp [generate_test_cases, h1, check_snd_cache, h2, h3, h4, h5,
                    _log_audit, check_snd_audit]
            · simp [generate_test_cases, h1, check_snd_cache, h2, h3, h4,
                check_snd_audit]

/-! ## C7 — similarity threshold gate and fall-through -/

/-- C7: `_find_similar_requirements` answers with the nearest neighbour
exactly when its similarity `1 - distance` reaches the caller's threshold;
below the threshold it signals no-match, and (given a cache miss, an admitted
request, a configured key and a successful provider) the call falls through
to the provider, returning `source="openai"`. -/
theorem c7_semantic_threshold (env : GenEnv) (requirement user_id model : String)
    (thr : ℚ) (st : GenState) (n : Neighbor) (resp : ApiResponse)
    (hn : env.nearest = some n)
    (hok : (_check_user_quota user_id (env.encode_len requirement + 500)
        env.today st).1 = true)
    (hmiss : lookupA st.cache (_generate_hash env.sha256 requirement
        [("model", model), ("version", "1.0")]) = none)
    (hkey : env.has_api_key = true)
    (hapi : env.api_result = Except.ok resp) :
    (_find_similar_requirements env.nearest thr
       = if thr ≤ 1 - n.distance
         then some { requirement := n.document, test_cases := n.test_cases,
                     similarity_score := 1 - n.distance, id := n.id }
         else none)
  ∧ (1 - n.distance < thr →
      (generate_test_cases env requirement user_id model true thr st).1
        = Except.ok
            { status := "success", test_cases := resp.content,
              source := "openai", request_id := env.request_id, cached := false,
              token_usage := some
                { resp.token_usage with
                  cost_usd := _calculate_cost resp.token_usage model },
              cost_usd := some (_calculate_cost resp.token_usage model) }) := by
  constructor
  · simp [_find_similar_requirements, hn, ge_iff_le]
  · intro hlt
    have hfs : _find_similar_requirements env.nearest thr = none := by
      simp [_find_similar_requirements, hn, ge_iff_le]
      linarith
    simp only [generate_test_cases, hok, check_snd_cache, hmiss, hfs, hkey,
      hapi, Bool.true_eq_false, if_false, if_true]

/-- C7 witness: a neighbour at similarity 1/2 misses the 0.8 threshold, so
the lookup signals no-match and the request is served by the provider. -/
theorem c7_witness :
    _find_similar_requirements envS.nearest (8/10) = none
  ∧ (generate_test_cases envS "Brand new requirement" "carol" "gpt-4" true
        (8/10) stCarol).1
      = Except.ok
          { status := "success", test_cases := "generated cases",
            source := "openai", request_id := "req-2", cached := false,
            token_usage := some
              { prompt_tokens := 10, completion_tokens := 20,
                total_tokens := 30, cost_usd := 3/2000 },
            cost_usd := some (3/2000) } := by
  have h := c7_semantic_threshold envS "Brand new requirement" "carol" "gpt-4"
    (8/10) stCarol nbrS respW
    rfl (by decide) (by decide) rfl rfl
  refine ⟨h.1.trans (by norm_num [nbrS]),
    (h.2 (by norm_num [nbrS])).trans
      (by norm_num [envS, respW, _calculate_cost,
        show lookupP pricing "gpt-4" = some (3/100, 6/100) from rfl])⟩

/-! ## C2 — semantic-hit textual substitution -/

theorem joinWith_nil_head (sep : List Char) (l : List (List Char)) (hl : l ≠ []) :
    joinWith sep ([] :: l) = sep ++ joinWith sep l := by
  cases l with
  | nil => exact absurd rfl hl
  | cons p ps => simp [joinWith]

theorem joinWith_cons_head (sep : List Char) (c : Char) (p : List Char)
    (ps : List (List Char)) :
    joinWith sep ((c :: p) :: ps) = c :: joinWith sep (p :: ps) := by
  cases ps <;> simp [joinWith]

theorem splitGo_ne_nil (pat : List Char) (hp : pat ≠ []) (s : List Char) :
    splitGo pat hp s ≠ [] := by
  induction s using splitGo.induct pat hp with
  | case1 => simp [splitGo]
  | case2 c rest hm ih =>
      rw [splitGo.eq_def]
      simp [hm]
  | case3 c rest hm hsp ih => exact absurd hsp ih
  | case4 c rest hm p ps hsp ih =>
      rw [splitGo.eq_def]
      simp [hm, hsp]

theorem replGo_eq_joinWith (pat rep : List Char) (hp : pat ≠ []) (s : List Char) :
    replGo pat rep hp s = joinWith rep (splitGo pat hp s) := by
  induction s using splitGo.induct pat hp with
  | case1 => simp [replGo, splitGo, joinWith]
  | case2 c rest hm ih =>
      rw [replGo.eq_def, splitGo.eq_def]
      simp only [hm, dif_pos, ih]
      rw [joinWith_nil_head _ _ (splitGo_ne_nil pat hp _)]
  | case3 c rest hm hsp ih => exact absurd hsp (splitGo_ne_nil pat hp rest)
  | case4 c rest hm p ps hsp ih =>
      rw [replGo.eq_def, splitGo.eq_def]
      rw [hsp] at ih
      simp only [hm, hsp]
      simp [ih, joinWith_cons_head]

theorem replGo_no_match (pat rep : List Char) (hp : pat ≠ []) (s : List Char)
    (h : hasMatch pat s = false) : replGo pat rep hp s = s := by
  induction s with
  | nil => simp [replGo]
  | cons c rest ih =>
      rw [hasMatch] at h
      rw [Bool.or_eq_false_iff] at h
      rw [replGo.eq_def]
      simp [h.1, ih h.2]

/-- C2 counterexample: the matched requirement is `"User Login"` and the
stored payload `"Verify User Login works"` echoes it in its original mixed
case.  The code's substitution is a no-op (it searches for the lowercased
text case-sensitively), so the derived payload is NOT the payload with the
case-insensitive occurrence replaced by the new requirement's text, contrary
to the claim. -/
theorem c2_counterexample :
    _generate_local_test_cases "Admin Login" simC2 = simC2.test_cases
  ∧ _generate_local_test_cases "Admin Login" simC2
      ≠ String.mk (ciReplaceAll "User Login".data "Admin Login".data
          "Verify User Login works".data) := by
  have hno : hasMatch ("User Login".data.map pyToLower)
      simC2.test_cases.data = false := by decide
  have h1 : _generate_local_test_cases "Admin Login" simC2 = simC2.test_cases := by
    unfold _generate_local_test_cases pyReplaceL simC2
    rw [dif_neg (by decide : ¬("User Login".data.map pyToLower = ([] : List Char)))]
    rw [replGo_no_match _ _ _ _ (by decide)]
  refine ⟨h1, ?_⟩
  rw [h1]
  decide

/-- C2 (amended): on a semantic-index hit the derived payload equals the
stored payload with all occurrences of the LOWERCASED matched requirement
replaced by the LOWERCASED new requirement (equivalently, the payload split
on the lowercased matched text and re-joined with the lowercased new text);
in particular, when the stored payload contains no occurrence of the
lowercased matched text — even if it contains it in another casing — the
stored payload is returned verbatim. -/
theorem c2_amended_substitution (requirement : String) (sim : SimilarData)
    (hp : sim.requirement.data.map pyToLower ≠ []) :
    (_generate_local_test_cases requirement sim).data
      = joinWith (requirement.data.map pyToLower)
          (splitGo (sim.requirement.data.map pyToLower) hp sim.test_cases.data)
  ∧ (hasMatch (sim.requirement.data.map pyToLower) sim.test_cases.data = false →
      _generate_local_test_cases requirement sim = sim.test_cases) := by
  constructor
  · unfold _generate_local_test_cases pyReplaceL
    rw [dif_neg hp, replGo_eq_joinWith]
  · intro hno
    unfold _generate_local_test_cases pyReplaceL
    rw [dif_neg hp, replGo_no_match _ _ _ _ hno]

/-- C2 witness: a payload without the lowercased matched text comes back
verbatim. -/
theorem c2_witness :
    _generate_local_test_cases "Admin Login" simC2b = "Standalone checks only" :=
  (c2_amended_substitution "Admin Login" simC2b (by decide)).2 (by decide)

/-! ## C4 — fingerprint determinism, canonicalization invariance, injectivity -/

theorem char_eq_of_toNat {c d : Char} (h : c.toNat = d.toNat) : c = d :=
  Char.eq_of_val_eq (UInt32.ext h)

theorem char_valid_range (c : Char) :
    c.toNat < 55296 ∨ (57343 < c.toNat ∧ c.toNat < 1114112) := by
  have h := c.valid
  unfold UInt32.isValidChar Nat.isValidChar at h
  exact h

theorem hexVal_hexDig (n : Nat) : hexVal (hexDig n) = some (n % 16) := by
  have h : n % 16 < 16 := Nat.mod_lt _ (by norm_num)
  unfold hexDig
  generalize hk : n % 16 = k at *
  interval_cases k <;> rfl

theorem hexDig_props (n : Nat) : hexDig n ≠ '"' ∧ hexDig n ≠ '\\' := by
  have h : n % 16 < 16 := Nat.mod_lt _ (by norm_num)
  unfold hexDig
  generalize hk : n % 16 = k at *
  interval_cases k <;> exact ⟨by decide, by decide⟩

theorem hex4_digits (n : Nat) (h : n ≤ 65535) :
    hex4 (hexDig (n / 4096)) (hexDig (n / 256)) (hexDig (n / 16)) (hexDig n)
      = some n := by
  simp only [hex4, hexVal_hexDig]
  congr 1
  omega

theorem headDecodeN_escChar (c : Char) (t : List Char) :
    headDecodeN (escChar c ++ t) = some (c.toNat, t) := by
  unfold escChar
  by_cases h1 : c.toNat = 34
  · simp [headDecodeN, h1]
  by_cases h2 : c.toNat = 92
  · simp [headDecodeN, h1, h2]
  by_cases h3 : c.toNat = 8
  · simp [headDecodeN, h1, h2, h3]
  by_cases h4 : c.toNat = 9
  · simp [headDecodeN, h1, h2, h3, h4]
  by_cases h5 : c.toNat = 10
  · simp [headDecodeN, h1, h2, h3, h4, h5]
  by_cases h6 : c.toNat = 12
  · simp [headDecodeN, h1, h2, h3, h4, h5, h6]
  by_cases h7 : c.toNat = 13
  · simp [headDecodeN, h1, h2, h3, h4, h5, h6, h7]
  by_cases h8 : 32 ≤ c.toNat ∧ c.toNat ≤ 126
  · have hcb : c ≠ '\\' := fun he => h2 (by rw [he]; rfl)
    simp [headDecodeN, h1, h2, h3, h4, h5, h6, h7, h8, hcb]
  by_cases h9 : c.toNat ≤ 65535
  · have hv := char_valid_range c
    have hns : ¬(55296 ≤ c.toNat ∧ c.toNat < 56320) := by omega
    simp only [h1, h2, h3, h4, h5, h6, h7, h8, h9, if_false, if_true,
      ite_false, ite_true]
    simp only [uEsc, List.cons_append, List.nil_append, headDecodeN,
      if_pos rfl]
    rw [hex4_digits _ h9]
    simp [hns]
  · have hv := char_valid_range c
    have hlt : c.toNat < 1114112 := by omega
    have hgt : 65536 ≤ c.toNat := by omega
    simp only [h1, h2, h3, h4, h5, h6, h7, h8, h9, if_false, if_true,
      ite_false, ite_true]
    have hhi : 55296 + (c.toNat - 65536) / 1024 ≤ 65535 := by omega
    have hlo : 56320 + (c.toNat - 65536) % 1024 ≤ 65535 := by
      have := Nat.mod_lt (c.toNat - 65536) (show 0 < 1024 by norm_num)
      omega
    simp only [uEsc, List.cons_append, List.nil_append, List.append_assoc,
      headDecodeN, if_pos rfl]
    rw [hex4_digits _ hhi]
    have hsur : 55296 ≤ 55296 + (c.toNat - 65536) / 1024 ∧
        55296 + (c.toNat - 65536) / 1024 < 56320 := by omega
    simp only [hsur, and_self, if_true, ite_true]
    rw [hex4_digits _ hlo]
    have hsur2 : 56320 ≤ 56320 + (c.toNat - 65536) % 1024 ∧
        56320 + (c.toNat - 65536) % 1024 < 57344 := by
      have := Nat.mod_lt (c.toNat - 65536) (show 0 < 1024 by norm_num)
      omega
    simp only [hsur2, and_self, if_true, ite_true, Option.some.injEq,
      Prod.mk.injEq, and_true]
    omega

theorem esc_inj (a : List Char) : ∀ b, esc a = esc b → a = b := by
  induction a with
  | nil =>
      intro b h
      cases b with
      | nil => rfl
      | cons c b' =>
          exfalso
          have h1 := headDecodeN_escChar c (esc b')
          rw [show escChar c ++ esc b' = esc (c :: b') from rfl, ← h] at h1
          simp [esc, headDecodeN] at h1
  | cons c a' ih =>
      intro b h
      cases b with
      | nil =>
          exfalso
          have h1 := headDecodeN_escChar c (esc a')
          rw [show escChar c ++ esc a' = esc (c :: a') from rfl, h] at h1
          simp [esc, headDecodeN] at h1
      | cons d b' =>
          have h1 := headDecodeN_escChar c (esc a')
          have h2 := headDecodeN_escChar d (esc b')
          rw [show escChar c ++ esc a' = esc (c :: a') from rfl, h] at h1
          rw [show escChar d ++ esc b' = esc (d :: b') from rfl] at h2
          rw [h2] at h1
          simp only [Option.some.injEq, Prod.mk.injEq] at h1
          rw [char_eq_of_toNat h1.1.symm, ih b' h1.2.symm]

theorem scan_quote (r : List Char) : scanStr ('"' :: r) = some ([], r) := by
  rw [scanStr.eq_def]
  simp

theorem scan_cons_plain {c : Char} (hq : c ≠ '"') (hb : c ≠ '\\')
    (r : List Char) :
    scanStr (c :: r) = (scanStr r).map (fun p => (c :: p.1, p.2)) := by
  rw [scanStr.eq_def]
  simp [hq, hb]

theorem scan_bs (c2 : Char) (r : List Char) :
    scanStr ('\\' :: c2 :: r)
      = (scanStr r).map (fun p => ('\\' :: c2 :: p.1, p.2)) := by
  rw [scanStr.eq_def]
  simp

theorem scan_uEsc (n : Nat) (t : List Char) :
    scanStr (uEsc n ++ t) = (scanStr t).map (fun p => (uEsc n ++ p.1, p.2)) := by
  simp only [uEsc, List.cons_append, List.nil_append]
  rw [scan_bs]
  rw [scan_cons_plain (hexDig_props _).1 (hexDig_props _).2]
  rw [scan_cons_plain (hexDig_props _).1 (hexDig_props _).2]
  rw [scan_cons_plain (hexDig_props _).1 (hexDig_props _).2]
  rw [scan_cons_plain (hexDig_props _).1 (hexDig_props _).2]
  cases scanStr t <;> simp

theorem scan_escChar (c : Char) (t : List Char) :
    scanStr (escChar c ++ t)
      = (scanStr t).map (fun p => (escChar c ++ p.1, p.2)) := by
  unfold escChar
  by_cases h1 : c.toNat = 34
  · simp [h1, scan_bs]
  by_cases h2 : c.toNat = 92
  · simp [h1, h2, scan_bs]
  by_cases h3 : c.toNat = 8
  · simp [h1, h2, h3, scan_bs]
  by_cases h4 : c.toNat = 9
  · simp [h1, h2, h3, h4, scan_bs]
  by_cases h5 : c.toNat = 10
  · simp [h1, h2, h3, h4, h5, scan_bs]
  by_cases h6 : c.toNat = 12
  · simp [h1, h2, h3, h4, h5, h6, scan_bs]
  by_cases h7 : c.toNat = 13
  · simp [h1, h2, h3, h4, h5, h6, h7, scan_bs]
  by_cases h8 : 32 ≤ c.toNat ∧ c.toNat ≤ 126
  · have hq : c ≠ '"' := fun he => h1 (by rw [he]; rfl)
    have hb : c ≠ '\\' := fun he => h2 (by rw [he]; rfl)
    simp [h1, h2, h3, h4, h5, h6, h7, h8, scan_cons_plain hq hb]
  by_cases h9 : c.toNat ≤ 65535
  · simp [h1, h2, h3, h4, h5, h6, h7, h8, h9, scan_uEsc]
  · simp only [h1, h2, h3, h4, h5, h6, h7, h8, h9, if_false, ite_false,
      List.append_assoc]
    rw [scan_uEsc, scan_uEsc]
    cases scanStr t <;> simp

theorem scan_esc (s : List Char) (r : List Char) :
    scanStr (esc s ++ '"' :: r) = some (esc s, r) := by
  induction s with
  | nil => simpa [esc] using scan_quote r
  | cons c s' ih =>
      show scanStr ((escChar c ++ esc s') ++ '"' :: r) = _
      rw [List.append_assoc, scan_escChar, ih]
      simp [esc]

theorem sorted_call (t m v : String) :
    sortByKey (pyUpdate [("text", pyCanon t)] [("model", m), ("version", v)])
      = [("model", m), ("text", pyCanon t), ("version", v)] := rfl

theorem dumps3_inj {m1 c1 v1 m2 c2 v2 : String}
    (h : dumps [("model", m1), ("text", c1), ("version", v1)]
       = dumps [("model", m2), ("text", c2), ("version", v2)]) :
    m1 = m2 ∧ c1 = c2 ∧ v1 = v2 := by
  have em : esc "model".data = ['m', 'o', 'd', 'e', 'l'] := by decide
  have et : esc "text".data = ['t', 'e', 'x', 't'] := by decide
  have ev : esc "version".data = ['v', 'e', 'r', 's', 'i', 'o', 'n'] := by decide
  have hd : ('\x7b' :: dumpsPairs [("model", m1), ("text", c1), ("version", v1)]
        ++ ['\x7d'])
      = ('\x7b' :: dumpsPairs [("model", m2), ("text", c2), ("version", v2)]
        ++ ['\x7d']) := congrArg String.data h
  simp only [dumpsPairs, jsonQuote, em, et, ev, List.cons_append,
    List.nil_append, List.append_assoc, List.cons.injEq, true_and] at hd
  have h5 := congrArg scanStr hd
  rw [scan_esc, scan_esc] at h5
  simp only [Option.some.injEq, Prod.mk.injEq] at h5
  obtain ⟨hm, hrest⟩ := h5
  simp only [List.cons.injEq, true_and] at hrest
  have h6 := congrArg scanStr hrest
  rw [scan_esc, scan_esc] at h6
  simp only [Option.some.injEq, Prod.mk.injEq] at h6
  obtain ⟨hc, hrest2⟩ := h6
  simp only [List.cons.injEq, true_and] at hrest2
  have h7 := congrArg scanStr hrest2
  rw [scan_esc, scan_esc] at h7
  simp only [Option.some.injEq, Prod.mk.injEq] at h7
  obtain ⟨hv, -⟩ := h7
  refine ⟨?_, ?_, ?_⟩
  · cases m1; cases m2; exact congrArg String.mk (esc_inj _ _ hm)
  · cases c1; cases c2; exact congrArg String.mk (esc_inj _ _ hc)
  · cases v1; cases v2; exact congrArg String.mk (esc_inj _ _ hv)

/-- C4: the fingerprint is a pure function of the canonicalized requirement
and the parameter set: repeated computation agrees; texts with the same
canonical (trimmed, lowercased) form fingerprint identically; and — for an
injective digest `h`, SHA-256's working assumption — equal fingerprints force
equal canonical text, equal model and equal version, so changing the
canonical requirement or any parameter changes the fingerprint. -/
theorem c4_fingerprint (h : String → String) (hinj : Function.Injective h)
    (t1 t2 m1 m2 v1 v2 : String) :
    cacheKeyHash h t1 m1 v1 = cacheKeyHash h t1 m1 v1
  ∧ (pyCanon t1 = pyCanon t2 → cacheKeyHash h t1 m1 v1 = cacheKeyHash h t2 m1 v1)
  ∧ (cacheKeyHash h t1 m1 v1 = cacheKeyHash h t2 m2 v2 →
      pyCanon t1 = pyCanon t2 ∧ m1 = m2 ∧ v1 = v2) := by
  refine ⟨rfl, ?_, ?_⟩
  · intro he
    unfold cacheKeyHash _generate_hash
    rw [he]
  · intro heq
    unfold cacheKeyHash _generate_hash at heq
    have h2 := hinj heq
    rw [sorted_call, sorted_call] at h2
    obtain ⟨hm, hc, hv⟩ := dumps3_inj h2
    exact ⟨hc, hm, hv⟩

/-- C4 witness (digest instantiated with the injective `id`): a trimmed,
lowercased variant of a requirement fingerprints identically, and changing
the requirement text changes the fingerprint. -/
theorem c4_witness :
    cacheKeyHash id "  User LOGIN " "gpt-4" "1.0"
      = cacheKeyHash id "user login" "gpt-4" "1.0"
  ∧ cacheKeyHash id "alpha" "gpt-4" "1.0" ≠ cacheKeyHash id "beta" "gpt-4" "1.0" := by
  constructor
  · exact (c4_fingerprint id Function.injective_id "  User LOGIN " "user login"
      "gpt-4" "gpt-4" "1.0" "1.0").2.1 (by decide)
  · intro hcontra
    have h2 := (c4_fingerprint id Function.injective_id "alpha" "beta"
      "gpt-4" "gpt-4" "1.0" "1.0").2.2 hcontra
    have h3 : pyCanon "alpha" ≠ pyCanon "beta" := by decide
    exact h3 h2.1

end FrothTestOps
